import Mathlib

/-!
Verification of the pod status classification and resource aggregation logic
of internal/render/pod.go.

Modelling conventions:
  - A Kubernetes resource.Quantity is modelled by its integer value (Int);
    Add is integer addition and Reset sets the value to zero.
  - A v1.ResourceList is an association list from resource names to
    quantities; the accessors Cpu and Memory look up the names cpu and
    memory and yield the zero quantity when the name is absent, exactly as
    the Kubernetes accessors return a zero Quantity for a missing key.
  - Go nil pointers are modelled with Option.
  - The Go structs v1.ContainerState, v1.ContainerStatus, v1.Container,
    v1.PodSpec, v1.PodStatus and v1.Pod are modelled with the fields the
    rendering code reads.
-/

/-- A resource list: names (such as cpu, memory) mapped to quantities. -/
abbrev ResourceList := List (String × Int)

/-- Quantity for the name cpu; zero quantity when absent (v1.ResourceList.Cpu). -/
def cpuOf (rl : ResourceList) : Int :=
  (rl.lookup ("cpu")).getD 0

/-- Quantity for the name memory; zero quantity when absent (v1.ResourceList.Memory). -/
def memOf (rl : ResourceList) : Int :=
  (rl.lookup ("memory")).getD 0

/-- v1.ResourceRequirements: the requests and limits lists of a container. -/
structure ResourceRequirements where
  requests : ResourceList
  limits : ResourceList
deriving DecidableEq

/-- v1.Container restricted to the fields read by the renderer. -/
structure Container where
  name : String
  resources : ResourceRequirements
deriving DecidableEq

/-- v1.ContainerStateWaiting restricted to the reason field. -/
structure ContainerStateWaiting where
  reason : String
deriving DecidableEq

/-- v1.ContainerStateTerminated restricted to the fields read by the renderer. -/
structure ContainerStateTerminated where
  exitCode : Int
  signal : Int
  reason : String
deriving DecidableEq

/-- v1.ContainerState: three optional variants, as in the Go struct where
each of the three pointers may independently be nil or set. -/
structure ContainerState where
  waiting : Option ContainerStateWaiting
  running : Option Unit
  terminated : Option ContainerStateTerminated
deriving DecidableEq

/-- v1.ContainerStatus restricted to the fields read by the renderer. -/
structure ContainerStatus where
  name : String
  ready : Bool
  restartCount : Nat
  state : ContainerState
deriving DecidableEq

/-- v1.PodSpec restricted to the container lists. -/
structure PodSpec where
  initContainers : List Container
  containers : List Container
deriving DecidableEq

/-- v1.PodStatus restricted to the fields read by the renderer. -/
structure PodStatus where
  phase : String
  reason : String
  containerStatuses : List ContainerStatus
  initContainerStatuses : List ContainerStatus
deriving DecidableEq

/-- v1.Pod restricted to the fields read by the renderer; the deletion
timestamp is modelled by its presence only. -/
structure Pod where
  deletionTimestamp : Option Unit
  spec : PodSpec
  status : PodStatus
deriving DecidableEq

/-- One entry of a metrics snapshot (mv1beta1.ContainerMetrics). -/
structure ContainerMetrics where
  name : String
  usage : ResourceList
deriving DecidableEq

/-- mv1beta1.PodMetrics restricted to the container usage entries. -/
structure PodMetrics where
  containers : List ContainerMetrics
deriving DecidableEq

/-- containerResources (pod.go): the request pair when the requests list is
non-empty, else the limit pair when the limits list is non-empty, else
undefined (the Go function returns a nil pair). -/
def containerResources (co : Container) : Option (Int × Int) :=
  if co.resources.requests ≠ [] then
    some (cpuOf co.resources.requests, memOf co.resources.requests)
  else if co.resources.limits ≠ [] then
    some (cpuOf co.resources.limits, memOf co.resources.limits)
  else
    none

/-- The loop body of resourceRequests (pod.go): accumulate the extracted
pair of each container; on the first container whose extraction is
undefined, reset both totals to zero and stop. -/
def resourceRequestsAux : List Container → Int × Int → Int × Int
  | [], acc => acc
  | co :: rest, acc =>
    match containerResources co with
    | none => (0, 0)
    | some p => resourceRequestsAux rest (acc.1 + p.1, acc.2 + p.2)

/-- resourceRequests (pod.go): aggregate request totals over one scope. -/
def resourceRequests (cc : List Container) : Int × Int :=
  resourceRequestsAux cc (0, 0)

/-- The loop body of resourceLimits (pod.go): accumulate each container's
limits; on the first container with an empty limits list, reset both totals
to zero and stop. -/
def resourceLimitsAux : List Container → Int × Int → Int × Int
  | [], acc => acc
  | co :: rest, acc =>
    if co.resources.limits = [] then (0, 0)
    else resourceLimitsAux rest
      (acc.1 + cpuOf co.resources.limits, acc.2 + memOf co.resources.limits)

/-- resourceLimits (pod.go): aggregate limit totals over one scope. -/
def resourceLimits (cc : List Container) : Int × Int :=
  resourceLimitsAux cc (0, 0)

/-- podRequests (pod.go): regular scope total plus init scope total. -/
def podRequests (spec : PodSpec) : Int × Int :=
  let c := resourceRequests spec.containers
  let i := resourceRequests spec.initContainers
  (c.1 + i.1, c.2 + i.2)

/-- podLimits (pod.go): regular scope total plus init scope total. -/
def podLimits (spec : PodSpec) : Int × Int :=
  let c := resourceLimits spec.containers
  let i := resourceLimits spec.initContainers
  (c.1 + i.1, c.2 + i.2)

/-- Every container of the scope has a defined extraction. -/
def allDefined (cc : List Container) : Bool :=
  cc.all (fun co => (containerResources co).isSome)

/-- Componentwise sum of the extracted pairs of a scope. -/
def definedSum : List Container → Int × Int
  | [] => (0, 0)
  | co :: rest =>
    let s := definedSum rest
    match containerResources co with
    | some p => (p.1 + s.1, p.2 + s.2)
    | none => s

/-- The aggregation rule as the specification states it: a container
contributes its request pair if it declares any request, otherwise its
limit pair if it declares any limit, otherwise it is undefined; when every
container is defined the scope total is the sum of the contributed pairs,
and when any container is undefined the scope total is zero for both cpu
and mem. -/
def requestsSpec (cc : List Container) : Int × Int :=
  if allDefined cc then definedSum cc else (0, 0)

theorem resourceRequestsAux_char (cc : List Container) :
    ∀ acc : Int × Int, resourceRequestsAux cc acc =
      if allDefined cc then (acc.1 + (definedSum cc).1, acc.2 + (definedSum cc).2)
      else (0, 0) := by
  induction cc with
  | nil =>
    intro acc
    simp [resourceRequestsAux, allDefined, definedSum]
  | cons co rest ih =>
    intro acc
    cases hco : containerResources co with
    | none =>
      simp [resourceRequestsAux, hco, allDefined]
    | some p =>
      simp only [resourceRequestsAux, hco]
      rw [ih]
      have hall : allDefined (co :: rest) = allDefined rest := by
        simp [allDefined, hco]
      rw [hall]
      by_cases h : allDefined rest = true
      · simp only [h, if_pos, definedSum, hco]
        simp [Prod.ext_iff]
        constructor <;> ring
      · simp [h]

/-- A container that declares no request at all but does declare a cpu limit. -/
def c1ExampleContainer : Container :=
  ⟨"web", ⟨[], [(("cpu"), 100)]⟩⟩

/-- A scope containing a container with neither requests nor limits. -/
def c1WitnessScope : List Container :=
  [⟨"api", ⟨[(("cpu"), 1)], []⟩⟩, ⟨"bare", ⟨[], []⟩⟩]

/-- C1 counterexample: the container lacks a defined request for both cpu
and mem (its requests list is empty), yet the aggregated request total of
its scope is (100, 0), not zero for both, because the extraction falls back
to the container's limits. -/
theorem resourceRequests_c1_counterexample :
    c1ExampleContainer.resources.requests.lookup ("cpu") = none ∧
    c1ExampleContainer.resources.requests.lookup ("memory") = none ∧
    resourceRequests [c1ExampleContainer] = (100, 0) ∧
    resourceRequests [c1ExampleContainer] ≠ (0, 0) := by
  refine ⟨rfl, rfl, by decide, by decide⟩

/-- C1 (amended): if any container of the scope declares neither any
request nor any limit (its extraction is undefined), the aggregated request
total returned by resourceRequests is exactly zero for both cpu and mem. -/
theorem resourceRequests_undefined_zero (cc : List Container) (co : Container)
    (hmem : co ∈ cc) (hundef : containerResources co = none) :
    resourceRequests cc = (0, 0) := by
  unfold resourceRequests
  rw [resourceRequestsAux_char]
  have h : allDefined cc ≠ true := by
    intro hall
    simp only [allDefined, List.all_eq_true] at hall
    have hco := hall co hmem
    simp [hundef] at hco
  simp [h]

/-- C1 (amended) witness at a concrete scope. -/
theorem resourceRequests_undefined_zero_witness :
    resourceRequests c1WitnessScope = (0, 0) :=
  resourceRequests_undefined_zero c1WitnessScope ⟨"bare", ⟨[], []⟩⟩
    (by decide) (by decide)

/-- C2: resourceRequests aggregates per-container pairs under the stated
rule: the request pair if any request is declared, else the limit pair if
any limit is declared, else undefined; observably, when every container is
defined the total is the sum of the contributed pairs, and the moment any
container is undefined the running totals are reset to zero and no further
container changes the result, so the total is zero for both. -/
theorem resourceRequests_eq_requestsSpec (cc : List Container) :
    resourceRequests cc = requestsSpec cc := by
  unfold resourceRequests requestsSpec
  rw [resourceRequestsAux_char]
  by_cases h : allDefined cc = true <;> simp [h]

/-- Modelled from the spec: the Completed phase sentinel of the render
package (the constant is declared outside the given file). -/
def Completed : String := "Completed"

/-- Modelled from the spec: the Running phase sentinel of the render package. -/
def Running : String := "Running"

/-- Modelled from the spec: the Terminating phase sentinel of the render
package. -/
def Terminating : String := "Terminating"

/-- checkContainerStatus (pod.go): the per-container init label; the empty
string means the container terminated successfully and is skipped. -/
def checkContainerStatus (cs : ContainerStatus) (i initCount : Nat) : String :=
  match cs.state.terminated with
  | some t =>
    if t.exitCode = 0 then ""
    else if t.reason ≠ "" then ("Init:" ++ t.reason)
    else if t.signal ≠ 0 then ("Init:Signal:" ++ toString t.signal)
    else ("Init:ExitCode:" ++ toString t.exitCode)
  | none =>
    match cs.state.waiting with
    | some w =>
      if w.reason ≠ "" ∧ w.reason ≠ ("PodInitializing") then ("Init:" ++ w.reason)
      else ("Init:" ++ toString i ++ ("/") ++ toString initCount)
    | none => ("Init:" ++ toString i ++ ("/") ++ toString initCount)

/-- The loop of initContainerPhase (pod.go): first non-empty per-container
label, scanning in index order. -/
def initLoop : List ContainerStatus → Nat → Nat → Option String
  | [], _, _ => none
  | cs :: rest, i, n =>
    if checkContainerStatus cs i n = "" then initLoop rest (i + 1) n
    else some (checkContainerStatus cs i n)

/-- initContainerPhase (pod.go): the init override label and whether it
applies. -/
def initContainerPhase (sts : List ContainerStatus) (initCount : Nat)
    (status : String) : String × Bool :=
  match initLoop sts 0 initCount with
  | some s => (s, true)
  | none => (status, false)

/-- A successfully terminated init container (terminated with exit code 0). -/
def initSucceeded (cs : ContainerStatus) : Bool :=
  match cs.state.terminated with
  | some t => decide (t.exitCode = 0)
  | none => false

/-- The per-container init label rule as the specification states it, for a
container that is not terminated with exit code 0. -/
def initLabelSpec (cs : ContainerStatus) (i n : Nat) : String :=
  match cs.state.terminated with
  | some t =>
    if t.reason ≠ "" then ("Init:" ++ t.reason)
    else if t.signal ≠ 0 then ("Init:Signal:" ++ toString t.signal)
    else ("Init:ExitCode:" ++ toString t.exitCode)
  | none =>
    match cs.state.waiting with
    | some w =>
      if w.reason ≠ "" ∧ w.reason ≠ ("PodInitializing") then ("Init:" ++ w.reason)
      else ("Init:" ++ toString i ++ ("/") ++ toString n)
    | none => ("Init:" ++ toString i ++ ("/") ++ toString n)

/-- The first init container, with its index, that did not terminate with
exit code 0. -/
def firstFailing : List ContainerStatus → Nat → Option (ContainerStatus × Nat)
  | [], _ => none
  | cs :: rest, i => if initSucceeded cs then firstFailing rest (i + 1) else some (cs, i)

/-- The init phase rule as the specification states it: the first container
not terminated with exit code 0 determines the phase by the per-container
rule; when every init container terminated successfully, no override
applies. -/
def initPhaseSpec (sts : List ContainerStatus) (n : Nat) (status : String) :
    String × Bool :=
  match firstFailing sts 0 with
  | some p => (initLabelSpec p.1 p.2 n, true)
  | none => (status, false)

theorem append_ne_empty_left (s r : String) (hs : s ≠ "") : (s ++ r) ≠ "" := by
  intro h
  apply hs
  have h2 : (s ++ r).data = ("" : String).data := congrArg String.data h
  rw [String.data_append] at h2
  have h3 := (List.append_eq_nil.mp h2).1
  cases s with
  | mk d =>
    have h4 : d = [] := h3
    subst h4
    rfl

theorem initLabelSpec_ne_empty (cs : ContainerStatus) (i n : Nat) :
    initLabelSpec cs i n ≠ "" := by
  have hprog : ("Init:" ++ toString i ++ ("/") ++ toString n) ≠ "" :=
    append_ne_empty_left ("Init:" ++ toString i ++ ("/")) (toString n)
      (append_ne_empty_left ("Init:" ++ toString i) ("/")
        (append_ne_empty_left ("Init:") (toString i) (by decide)))
  unfold initLabelSpec
  split
  · split
    · exact append_ne_empty_left ("Init:") _ (by decide)
    · split
      · exact append_ne_empty_left ("Init:Signal:") _ (by decide)
      · exact append_ne_empty_left ("Init:ExitCode:") _ (by decide)
  · split
    · split
      · exact append_ne_empty_left ("Init:") _ (by decide)
      · exact hprog
    · exact hprog

theorem checkContainerStatus_char (cs : ContainerStatus) (i n : Nat) :
    checkContainerStatus cs i n =
      if initSucceeded cs then "" else initLabelSpec cs i n := by
  cases ht : cs.state.terminated with
  | some t =>
    by_cases he : t.exitCode = 0 <;>
      simp [checkContainerStatus, initSucceeded, initLabelSpec, ht, he]
  | none =>
    simp [checkContainerStatus, initSucceeded, initLabelSpec, ht]

theorem initLoop_eq_firstFailing (sts : List ContainerStatus) :
    ∀ i n, initLoop sts i n =
      (firstFailing sts i).map (fun p => initLabelSpec p.1 p.2 n) := by
  induction sts with
  | nil => intro i n; rfl
  | cons cs rest ih =>
    intro i n
    by_cases h : initSucceeded cs = true
    · have hc : checkContainerStatus cs i n = "" := by
        rw [checkContainerStatus_char]
        simp [h]
      simp [initLoop, firstFailing, hc, h, ih]
    · have hc : checkContainerStatus cs i n = initLabelSpec cs i n := by
        rw [checkContainerStatus_char]
        simp [h]
      simp [initLoop, firstFailing, hc, h, initLabelSpec_ne_empty cs i n]

/-- C5: scanning init container statuses in original index order, the first
container not terminated with exit code 0 determines the returned phase by
the stated per-container rule (terminated with non-zero exit yields the
reason, else the signal, else the exit code; waiting with a reason other
than PodInitializing yields the reason; any other state yields the progress
indicator with the container index over the init count); the remaining init
containers are not consulted. -/
theorem initContainerPhase_eq_initPhaseSpec (sts : List ContainerStatus)
    (n : Nat) (status : String) :
    initContainerPhase sts n status = initPhaseSpec sts n status := by
  unfold initContainerPhase initPhaseSpec
  rw [initLoop_eq_firstFailing]
  cases firstFailing sts 0 <;> simp

/-- The terminated-without-reason label of containerPhase (pod.go). -/
def termLabel (t : ContainerStateTerminated) : String :=
  if t.signal ≠ 0 then ("Signal:" ++ toString t.signal)
  else ("ExitCode:" ++ toString t.exitCode)

/-- The last two cases of the containerPhase switch (pod.go): terminated
containers set the label, a ready running container sets the flag. -/
def cpStepTerm (cs : ContainerStatus) (acc : String × Bool) : String × Bool :=
  match cs.state.terminated with
  | some t =>
    if t.reason ≠ "" then (t.reason, acc.2) else (termLabel t, acc.2)
  | none =>
    if cs.ready ∧ cs.state.running.isSome then (acc.1, true) else acc

/-- One iteration of the containerPhase loop (pod.go): the switch over the
container state, waiting-with-reason first. -/
def cpStep (cs : ContainerStatus) (acc : String × Bool) : String × Bool :=
  match cs.state.waiting with
  | some w => if w.reason ≠ "" then (w.reason, acc.2) else cpStepTerm cs acc
  | none => cpStepTerm cs acc

/-- containerPhase (pod.go): the loop walks the statuses from the highest
index down to index 0, so the head of the list is processed last. -/
def containerPhase : List ContainerStatus → String → String × Bool
  | [], status => (status, false)
  | cs :: rest, status => cpStep cs (containerPhase rest status)

/-- The labeling cases of the switch: waiting with non-empty reason,
terminated with reason, terminated without reason. -/
def labelCaseTerm (cs : ContainerStatus) : Option String :=
  match cs.state.terminated with
  | some t => if t.reason ≠ "" then some t.reason else some (termLabel t)
  | none => none

/-- The label a container assigns when it matches a labeling case. -/
def labelCase (cs : ContainerStatus) : Option String :=
  match cs.state.waiting with
  | some w => if w.reason ≠ "" then some w.reason else labelCaseTerm cs
  | none => labelCaseTerm cs

/-- A container that matches the running case of the switch: no labeling
case applies, and it is ready with a running state. -/
def runningCase (cs : ContainerStatus) : Bool :=
  (labelCase cs).isNone && cs.ready && cs.state.running.isSome

/-- The regular-container scan as the specification states it: among all
containers matching a labeling case, the lowest-indexed one determines the
final label (the initial status stands when none matches), and the flag is
set exactly when some container is ready and running without matching a
labeling case. -/
def containerPhaseSpec (l : List ContainerStatus) (status : String) :
    String × Bool :=
  ((l.findSome? labelCase).getD status, l.any runningCase)

theorem cpStep_char (cs : ContainerStatus) (acc : String × Bool) :
    cpStep cs acc =
      match labelCase cs with
      | some lbl => (lbl, acc.2)
      | none => if cs.ready ∧ cs.state.running.isSome then (acc.1, true) else acc := by
  unfold cpStep labelCase
  cases hw : cs.state.waiting with
  | some w =>
    by_cases hr : w.reason ≠ ""
    · simp [hr]
    · simp only [hr, if_false, if_neg hr]
      unfold cpStepTerm labelCaseTerm
      cases ht : cs.state.terminated with
      | some t => by_cases h2 : t.reason ≠ "" <;> simp [h2]
      | none => simp
  | none =>
    unfold cpStepTerm labelCaseTerm
    cases ht : cs.state.terminated with
    | some t => by_cases h2 : t.reason ≠ "" <;> simp [h2]
    | none => simp

/-- C6: the regular-container scan visits statuses from the highest index
down to index 0 and assigns the label unconditionally on each matching
case, so the lowest-indexed container matching a labeling case determines
the final label, and a ready running container only sets the flag and never
changes the label. -/
theorem containerPhase_eq_containerPhaseSpec (l : List ContainerStatus)
    (status : String) :
    containerPhase l status = containerPhaseSpec l status := by
  induction l with
  | nil => rfl
  | cons cs rest ih =>
    simp only [containerPhase, ih, cpStep_char]
    unfold containerPhaseSpec
    cases hl : labelCase cs with
    | some lbl =>
      have hrc : runningCase cs = false := by
        simp [runningCase, hl]
      simp [List.findSome?_cons, hl, hrc, containerPhaseSpec]
    | none =>
      by_cases hr : cs.ready ∧ cs.state.running.isSome
      · have hrc : runningCase cs = true := by
          simp [runningCase, hl, hr.1, hr.2]
        simp [List.findSome?_cons, hl, hrc, hr, containerPhaseSpec]
      · have hrc : runningCase cs = false := by
          simp only [runningCase, hl, Option.isNone_none, Bool.true_and]
          rcases Decidable.not_and_iff_or_not.mp hr with h | h
          · simp [Bool.eq_false_iff.mpr h]
          · simp [Bool.eq_false_iff.mpr h]
        simp [List.findSome?_cons, hl, hrc, hr, containerPhaseSpec]

/-- Phase (pod.go): the ordered precedence rules deriving a pod's display
phase from its status, init containers, regular containers, and deletion
marker. -/
def Phase (po : Pod) : String :=
  if po.status.reason ≠ "" ∧ po.deletionTimestamp.isSome ∧ po.status.reason = ("NodeLost") then
    ("Unknown")
  else
    let status := if po.status.reason ≠ "" then po.status.reason else po.status.phase
    let r1 := initContainerPhase po.status.initContainerStatuses
      po.spec.initContainers.length status
    if r1.2 then r1.1
    else
      let r2 := containerPhase po.status.containerStatuses status
      let s2 := if r2.2 ∧ r2.1 = Completed then Running else r2.1
      if po.deletionTimestamp.isNone then s2 else Terminating

/-- C3: a pod whose deletion is requested and whose status reason is
NodeLost gets phase Unknown, regardless of every container status and
before any init or regular container rule is consulted. -/
theorem Phase_nodeLost (po : Pod)
    (hdel : po.deletionTimestamp.isSome = true)
    (hr : po.status.reason = ("NodeLost")) :
    Phase po = ("Unknown") := by
  unfold Phase
  rw [if_pos]
  exact ⟨by simp [hr], hdel, hr⟩

/-- A pod with deletion requested, reason NodeLost, and a ready running
container. -/
def c3ExamplePod : Pod :=
  ⟨some (), ⟨[], [⟨"app", ⟨[], []⟩⟩]⟩,
   ⟨("Running"), ("NodeLost"), [⟨"app", true, 0, ⟨none, some (), none⟩⟩], []⟩⟩

/-- C3 witness at a concrete pod whose only container is ready and running. -/
theorem Phase_nodeLost_witness : Phase c3ExamplePod = ("Unknown") :=
  Phase_nodeLost c3ExamplePod rfl rfl

/-- C4: a pod whose deletion is requested, whose reason is not NodeLost,
and for which no init-container override applies, gets phase Terminating
regardless of the label computed from the regular-container scan. -/
theorem Phase_terminating (po : Pod)
    (hdel : po.deletionTimestamp.isSome = true)
    (hr : po.status.reason ≠ ("NodeLost"))
    (hinit : initLoop po.status.initContainerStatuses 0
      po.spec.initContainers.length = none) :
    Phase po = ("Terminating") := by
  unfold Phase
  rw [if_neg (fun hcon => hr hcon.2.2)]
  have h2 : po.deletionTimestamp.isNone = false := by
    cases hd : po.deletionTimestamp with
    | none => rw [hd] at hdel; simp at hdel
    | some u => simp
  simp only [initContainerPhase, hinit, h2]
  simp [Terminating]

/-- A pod with deletion requested, empty reason, and a ready running
container. -/
def c4ExamplePod : Pod :=
  ⟨some (), ⟨[], [⟨"app", ⟨[], []⟩⟩]⟩,
   ⟨("Running"), (""), [⟨"app", true, 0, ⟨none, some (), none⟩⟩], []⟩⟩

/-- C4 witness at a concrete pod whose only container is ready and running. -/
theorem Phase_terminating_witness : Phase c4ExamplePod = ("Terminating") :=
  Phase_terminating c4ExamplePod rfl (by decide) rfl

/-- diagnose (pod.go): no diagnostic for the Completed phase; otherwise a
ready-count mismatch or an empty container set yields the diagnostic
message. -/
def diagnose (phase : String) (cr ct : Nat) : Option String :=
  if phase = Completed then none
  else if cr ≠ ct ∨ ct = 0 then
    some (("container ready check failed: ") ++ toString cr ++ (" of ") ++ toString ct)
  else none

/-- The readiness diagnosis rule as the specification states it: healthy
when the phase is the Completed sentinel; otherwise healthy exactly when
the ready count equals the container total and the total is positive;
otherwise the exact failure message. -/
def diagnoseSpec (phase : String) (cr ct : Nat) : Option String :=
  if phase = Completed then none
  else if cr = ct ∧ 0 < ct then none
  else some (("container ready check failed: ") ++ toString cr ++ (" of ") ++ toString ct)

/-- C7: diagnose returns no diagnostic when the phase equals Completed, for
every ready count and total; otherwise it returns no diagnostic exactly
when the ready count equals the total and the total is positive, and in all
remaining cases returns exactly the stated message. -/
theorem diagnose_eq_diagnoseSpec (phase : String) (cr ct : Nat) :
    diagnose phase cr ct = diagnoseSpec phase cr ct := by
  unfold diagnose diagnoseSpec
  by_cases h : phase = Completed
  · simp [h]
  · simp only [h, if_false]
    by_cases h2 : cr = ct ∧ 0 < ct
    · rw [if_neg (by omega), if_pos h2]
    · rw [if_pos (by omega), if_neg h2]

/-- Modelled from the spec: the not-available sentinel used for display
fields (the render package constant is declared outside the given file). -/
def NAValue : String := "n/a"

/-- The metric display struct of the render package: current usage strings
and the four percentage strings. -/
structure Metric where
  cpu : String
  mem : String
  cpuLim : String
  memLim : String
deriving DecidableEq

/-- Modelled from the spec: noMetric yields a metric whose fields are all
the not-available sentinel. -/
def noMetric : Metric := ⟨NAValue, NAValue, NAValue, NAValue⟩

/-- Modelled from the spec: percentage display where a zero denominator
yields the not-available sentinel, never a fault (client.ToPercentageStr is
declared outside the given file). -/
def ToPercentageStr (v d : Int) : String :=
  if d = 0 then NAValue else (toString (v * 100 / d) ++ ("%"))

/-- Modelled from the spec: millicore display formatting. -/
def ToMc (v : Int) : String := toString v

/-- Modelled from the spec: mebibyte display formatting. -/
def ToMi (v : Int) : String := toString v

/-- Modelled from the spec: convert a byte quantity to megabytes
(client.ToMB is declared outside the given file). -/
def ToMB (v : Int) : Int := v / (1024 * 1024)

/-- The resources map built by gatherPodMX: the four aggregated quantities,
keyed rcpu, rmem, lcpu, lmem in the source. -/
structure Resources where
  rcpu : Int
  rmem : Int
  lcpu : Int
  lmem : Int
deriving DecidableEq

/-- currentRes (pod.go): sum cpu and mem over every entry of the snapshot;
a nil snapshot yields zero quantities. -/
def currentRes (mx : Option PodMetrics) : Int × Int :=
  match mx with
  | none => (0, 0)
  | some m =>
    m.containers.foldl
      (fun acc co => (acc.1 + cpuOf co.usage, acc.2 + memOf co.usage)) (0, 0)

/-- gatherPodMX (pod.go): with no snapshot both metrics are the sentinel
metric and the resources map is nil; with a snapshot, the current metric,
the four percentages against the aggregated request and limit totals, and
the filled resources map. -/
def gatherPodMX (po : Pod) (mx : Option PodMetrics) :
    Metric × Metric × Option Resources :=
  match mx with
  | none => (noMetric, noMetric, none)
  | some m =>
    let cur := currentRes (some m)
    let c : Metric := ⟨ToMc cur.1, ToMi (ToMB cur.2), "", ""⟩
    let req := podRequests po.spec
    let lim := podLimits po.spec
    let r : Resources := ⟨req.1, req.2, lim.1, lim.2⟩
    let p : Metric := ⟨ToPercentageStr cur.1 req.1,
                       ToPercentageStr (ToMB cur.2) (ToMB req.2),
                       ToPercentageStr cur.1 lim.1,
                       ToPercentageStr (ToMB cur.2) (ToMB lim.2)⟩
    (c, p, some r)

/-- C8: gatherPodMX is total; with a nil snapshot both current-usage fields
and all four percentage fields are the not-available sentinel, and with a
snapshot present, any percentage whose denominator quantity is zero is the
sentinel for that one field. -/
theorem gatherPodMX_na (po : Pod) (m : PodMetrics) :
    (gatherPodMX po none).1.cpu = NAValue ∧
    (gatherPodMX po none).1.mem = NAValue ∧
    (gatherPodMX po none).2.1.cpu = NAValue ∧
    (gatherPodMX po none).2.1.mem = NAValue ∧
    (gatherPodMX po none).2.1.cpuLim = NAValue ∧
    (gatherPodMX po none).2.1.memLim = NAValue ∧
    ((podRequests po.spec).1 = 0 → (gatherPodMX po (some m)).2.1.cpu = NAValue) ∧
    ((podRequests po.spec).2 = 0 → (gatherPodMX po (some m)).2.1.mem = NAValue) ∧
    ((podLimits po.spec).1 = 0 → (gatherPodMX po (some m)).2.1.cpuLim = NAValue) ∧
    ((podLimits po.spec).2 = 0 → (gatherPodMX po (some m)).2.1.memLim = NAValue) := by
  refine ⟨rfl, rfl, rfl, rfl, rfl, rfl, ?_, ?_, ?_, ?_⟩ <;> intro h <;>
    simp [gatherPodMX, ToPercentageStr, ToMB, h]

/-- A pod with no declared resources at all, so every aggregated total is
zero. -/
def c8ExamplePod : Pod :=
  ⟨none, ⟨[], [⟨"app", ⟨[], []⟩⟩]⟩,
   ⟨("Running"), (""), [], []⟩⟩

/-- A snapshot reporting 500 cpu for the pod's container. -/
def c8ExampleMX : PodMetrics :=
  ⟨[⟨"app", [(("cpu"), 500)]⟩]⟩

/-- C8 witness: at a concrete pod whose aggregated request cpu is zero and
a snapshot with current cpu 500, the request-percentage field is the
sentinel, and with no snapshot every field is the sentinel. -/
theorem gatherPodMX_na_witness :
    (podRequests c8ExamplePod.spec).1 = 0 ∧
    currentRes (some c8ExampleMX) = (500, 0) ∧
    (gatherPodMX c8ExamplePod (some c8ExampleMX)).2.1.cpu = NAValue ∧
    (gatherPodMX c8ExamplePod none).1.cpu = NAValue ∧
    (gatherPodMX c8ExamplePod none).2.1.memLim = NAValue :=
  ⟨by decide, by decide,
   (gatherPodMX_na c8ExamplePod c8ExampleMX).2.2.2.2.2.2.1 (by decide),
   (gatherPodMX_na c8ExamplePod c8ExampleMX).1,
   (gatherPodMX_na c8ExamplePod c8ExampleMX).2.2.2.2.2.1⟩

theorem currentResAux (l : List ContainerMetrics) :
    ∀ a b : Int,
      l.foldl (fun acc co => (acc.1 + cpuOf co.usage, acc.2 + memOf co.usage)) (a, b) =
        (a + (l.map (fun co => cpuOf co.usage)).sum,
         b + (l.map (fun co => memOf co.usage)).sum) := by
  induction l with
  | nil => intro a b; simp
  | cons co rest ih =>
    intro a b
    simp only [List.foldl_cons, ih, List.map_cons, List.sum_cons]
    simp [Prod.ext_iff]
    constructor <;> ring

/-- C9: for every snapshot, the current cpu equals the sum of cpu over
every entry and the current mem equals the sum of mem over every entry,
with no filtering or correlation of entry names against the pod's declared
containers (the snapshot is the only input consulted). -/
theorem currentRes_sums (m : PodMetrics) :
    currentRes (some m) =
      ((m.containers.map (fun co => cpuOf co.usage)).sum,
       (m.containers.map (fun co => memOf co.usage)).sum) := by
  have h : currentRes (some m) =
      m.containers.foldl
        (fun acc co => (acc.1 + cpuOf co.usage, acc.2 + memOf co.usage)) (0, 0) := rfl
  rw [h, currentResAux]
  simp

/-- Modelled from the spec: ToResourcesMc renders the request and limit cpu
column; an absent resources map degrades to the not-available sentinel. -/
def ToResourcesMc (r : Option Resources) : String :=
  match r with
  | none => NAValue
  | some m => (ToMc m.rcpu ++ (":") ++ ToMc m.lcpu)

/-- Modelled from the spec: ToResourcesMi renders the request and limit mem
column; an absent resources map degrades to the not-available sentinel. -/
def ToResourcesMi (r : Option Resources) : String :=
  match r with
  | none => NAValue
  | some m => (ToMi (ToMB m.rmem) ++ (":") ++ ToMi (ToMB m.lmem))

/-- The request and limit columns of Render (pod.go, the CPU and MEM
request-limit fields of the row), fed by the resources map of gatherPodMX. -/
def renderResourceColumns (po : Pod) (mx : Option PodMetrics) : String × String :=
  let res := (gatherPodMX po mx).2.2
  (ToResourcesMc res, ToResourcesMi res)

/-- C10: with a nil metrics snapshot, gatherPodMX returns early with a nil
resources map, so the request-limit cpu and mem columns of the rendered row
also degrade to the not-available sentinel. -/
theorem render_nil_metrics_na (po : Pod) :
    (gatherPodMX po none).2.2 = none ∧
    renderResourceColumns po none = (NAValue, NAValue) :=
  ⟨rfl, rfl⟩
